import Mathlib

/-!
Verification of the share-accounting and liquidation logic of the
morpho_curation_tool scripts.  Monetary quantities are JS bigints, modelled
as `Nat`; the JS bigint division operator (which throws on a zero divisor)
is modelled by `checkedDiv` returning `Except`.  The spec-side fixed-point
primitives `mulDivDown` and `mulDivUp` are defined separately so that the
source formulas can be compared against them.
-/

namespace MorphoTool

/-- Error raised by the JS bigint division operator on a zero divisor. -/
inductive LedgerError where
  | divisionByZero
  deriving DecidableEq, Repr

/-- JS bigint division: `a / b` throws a RangeError when `b = 0`. -/
def checkedDiv (a b : Nat) : Except LedgerError Nat :=
  if b = 0 then Except.error LedgerError.divisionByZero else Except.ok (a / b)

/-- Fixed-point scale of 10^18, `parseUnits("1", 18)` in the scripts. -/
def WAD : Nat := 10 ^ 18

/-- Spec FixedPointMath: floor of a*b/c. -/
def mulDivDown (a b c : Nat) : Nat := a * b / c

/-- Spec FixedPointMath: ceiling of a*b/c. -/
def mulDivUp (a b c : Nat) : Nat := (a * b + c - 1) / c

/-- Oracle price scale: 36 + loanDecimals - collateralDecimals fractional
digits, `parseUnits("1", decimalAdjustment)` in the scripts. -/
def oracleScale (loanDecimals collateralDecimals : Nat) : Nat :=
  10 ^ (36 + loanDecimals - collateralDecimals)

/-- Spec OraclePriceAdapter: collateral amount converted to loan assets,
rounding down. -/
def toLoanAssets (collateralAmount price loanDecimals collateralDecimals : Nat) : Nat :=
  mulDivDown collateralAmount price (oracleScale loanDecimals collateralDecimals)

/-- Spec OraclePriceAdapter: loan assets converted to a collateral amount,
rounding down. -/
def toCollateralAmount (loanAssets price loanDecimals collateralDecimals : Nat) : Nat :=
  mulDivDown loanAssets (oracleScale loanDecimals collateralDecimals) price

namespace Liquidate

/-- src/scripts/liquidate.ts, calculateBorrowAssets (lines 119-126): guard
on zero total shares, then JS bigint division of borrowShares *
totalBorrowAssets by totalBorrowShares. -/
def calculateBorrowAssets (borrowShares totalBorrowShares totalBorrowAssets : Nat) :
    Except LedgerError Nat :=
  if totalBorrowShares = 0 then Except.ok 0
  else checkedDiv (borrowShares * totalBorrowAssets) totalBorrowShares

/-- src/scripts/liquidate.ts, isLiquidatable (lines 129-138): zero debt is
never liquidatable; otherwise debt is compared strictly against
collateralValue * lltv / WAD. -/
def isLiquidatable (collateralValue borrowValue lltv : Nat) : Bool :=
  if borrowValue = 0 then false
  else borrowValue > collateralValue * lltv / WAD

/-- src/scripts/liquidate.ts, calculateHealthFactor (lines 141-150).  The
source computes maxBorrowValue in bigint and then divides two JS Numbers,
Number(formatUnits(maxBorrowValue, 18)) / Number(formatUnits(borrowValue, 18));
the common 10^18 denominator cancels and the float division is modelled by
its exact rational value; the Infinity returned on zero debt is modelled as
none. -/
def calculateHealthFactor (collateralValue borrowValue lltv : Nat) : Option ℚ :=
  if borrowValue = 0 then none
  else some (((collateralValue * lltv / WAD : Nat) : ℚ) / (borrowValue : ℚ))

/-- src/scripts/liquidate.ts, lines 284-286: collateral value expressed in
loan-token units, floor-divided by the 10^(36 + loanDecimals -
collateralDecimals) scale.  The same formula appears in readOracle.ts
(decimalAdjustment) and in calculateMaxLiquidation. -/
def collateralValueInLoanToken (collateral oraclePrice loanDecimals collateralDecimals : Nat) :
    Nat :=
  collateral * oraclePrice / 10 ^ (36 + loanDecimals - collateralDecimals)

/-- Result of calculateMaxLiquidation.  The float field liquidationIncentive
(constant 1.05) of the source record is realised in the integer computation
as the factor 1050/1000, since BigInt(Math.floor(1.05 * 1000)) = 1050. -/
structure MaxLiquidation where
  maxSeizedAssets : Nat
  maxRepaidAssets : Nat
  deriving DecidableEq, Repr

/-- src/scripts/liquidate.ts, calculateMaxLiquidation (lines 153-184):
maxRepaidAssets is borrowAssets / 2; the repaid value with the 5 percent
incentive is maxRepaidAssets * 1050 / 1000; the seizable collateral is that
value scaled back through the oracle price and clamped to the available
collateral.  The lltv argument is accepted but unused, as in the source.
The JS division by oraclePrice throws on a zero price; theorems about this
definition assume 0 < oraclePrice. -/
def calculateMaxLiquidation (collateral borrowAssets oraclePrice : Nat)
    (loanTokenDecimals collateralTokenDecimals : Nat) (lltv : Nat) : MaxLiquidation :=
  let decimalAdjustment := 36 + loanTokenDecimals - collateralTokenDecimals
  let maxRepaidAssets := borrowAssets / 2
  let repaidValueWithIncentive := maxRepaidAssets * 1050 / 1000
  let maxSeizedAssets := repaidValueWithIncentive * 10 ^ decimalAdjustment / oraclePrice
  let actualMaxSeized := if maxSeizedAssets > collateral then collateral else maxSeizedAssets
  { maxSeizedAssets := actualMaxSeized, maxRepaidAssets := maxRepaidAssets }

/-- src/scripts/liquidate.ts, lines 374-383: before executing, a requested
seized amount above maxSeizedAssets is overwritten with maxSeizedAssets and
a requested repaid amount above maxRepaidAssets is overwritten with
maxRepaidAssets; execution then proceeds with the adjusted pair (there is
no error path here). -/
def validateLiquidationAmounts (seizedAssets repaidAssets maxSeized maxRepaid : Nat) :
    Nat × Nat :=
  (if seizedAssets > maxSeized then maxSeized else seizedAssets,
   if repaidAssets > maxRepaid then maxRepaid else repaidAssets)

end Liquidate

namespace RepayDebt

/-- src/scripts/repayDebt.ts, calculateCurrentDebt (lines 125-134): guard on
zero total shares, then JS bigint division of borrowShares *
totalBorrowAssets by totalBorrowShares. -/
def calculateCurrentDebt (borrowShares totalBorrowShares totalBorrowAssets : Nat) :
    Except LedgerError Nat :=
  if totalBorrowShares = 0 then Except.ok 0
  else checkedDiv (borrowShares * totalBorrowAssets) totalBorrowShares

end RepayDebt

namespace WithdrawLoan

/-- src/scripts/withdrawLoanTokensFromMarket.ts, calculateSupplyAssets
(lines 123-132): guard on zero total shares, then JS bigint division of
supplyShares * totalSupplyAssets by totalSupplyShares. -/
def calculateSupplyAssets (supplyShares totalSupplyShares totalSupplyAssets : Nat) :
    Except LedgerError Nat :=
  if totalSupplyShares = 0 then Except.ok 0
  else checkedDiv (supplyShares * totalSupplyAssets) totalSupplyShares

/-- src/scripts/withdrawLoanTokensFromMarket.ts, lines 274-280: the
withdrawal is rejected when the requested amount exceeds availableLiquidity
= totalSupplyAssets - totalBorrowAssets, computed in signed bigint
arithmetic. -/
def exceedsAvailableLiquidity (withdrawAmount totalSupplyAssets totalBorrowAssets : Nat) :
    Bool :=
  decide ((withdrawAmount : Int) > (totalSupplyAssets : Int) - (totalBorrowAssets : Int))

/-- src/scripts/withdrawLoanTokensFromMarket.ts, lines 296-304: burning all
supply shares when the requested amount reaches the current position value,
and otherwise withdrawAmount * supplyShares / currentSupplyAssets in JS
bigint floor division.  The division is only reached when withdrawAmount <
currentSupplyAssets, hence with a nonzero divisor. -/
def sharesToBurn (withdrawAmount supplyShares currentSupplyAssets : Nat) : Nat :=
  if withdrawAmount ≥ currentSupplyAssets then supplyShares
  else withdrawAmount * supplyShares / currentSupplyAssets

end WithdrawLoan

namespace UpdateQueue

/-- src/scripts/updateWithdrawQueueToVault.ts, calculateUserAssets (lines
375-382): guard on zero total shares, then JS bigint division of userShares
* totalAssets by totalShares. -/
def calculateUserAssets (userShares totalShares totalAssets : Nat) :
    Except LedgerError Nat :=
  if totalShares = 0 then Except.ok 0
  else checkedDiv (userShares * totalAssets) totalShares

/-- src/scripts/updateWithdrawQueueToVault.ts, calculateHealthFactor (lines
385-394), identical to the liquidate.ts version; modelled the same way. -/
def calculateHealthFactor (collateralValue borrowValue lltv : Nat) : Option ℚ :=
  if borrowValue = 0 then none
  else some (((collateralValue * lltv / WAD : Nat) : ℚ) / (borrowValue : ℚ))

end UpdateQueue

namespace SupplyMarket

/-- src/unnamed/part_004 (supply script), expectedShares computation (lines
243-251): proportional shares when both pool totals are positive, otherwise
the 1:1 first-deposit seed. -/
def expectedShares (supplyAmount totalSupplyAssets totalSupplyShares : Nat) : Nat :=
  if 0 < totalSupplyAssets ∧ 0 < totalSupplyShares then
    supplyAmount * totalSupplyShares / totalSupplyAssets
  else supplyAmount

/-- Supply-side pool totals of one market. -/
structure SupplyPool where
  totalSupplyAssets : Nat
  totalSupplyShares : Nat
  deriving DecidableEq, Repr

/-- Modelled from the spec: the state mutation of MarketLedger.supply happens
on chain and is not part of the repository scripts; spec section 4.4 states
that supply mints the shares the script computes as expectedShares and
increases both pool totals accordingly. -/
def supplyToMarket (assets : Nat) (p : SupplyPool) : Nat × SupplyPool :=
  let shares := expectedShares assets p.totalSupplyAssets p.totalSupplyShares
  (shares,
   { totalSupplyAssets := p.totalSupplyAssets + assets,
     totalSupplyShares := p.totalSupplyShares + shares })

end SupplyMarket

/-! Theorems settling the claims. -/

/-- C1: liquidatability is strict: a position is liquidatable exactly when
its debt strictly exceeds maxBorrowValue = mulDivDown(collateralValue,
lltv, WAD); with lltv = 0.8 WAD and collateralValue = 1000, a debt of 800
is not liquidatable while a debt of 801 is. -/
theorem isLiquidatable_strict_boundary :
    (∀ collateralValue borrowValue lltv : Nat,
      Liquidate.isLiquidatable collateralValue borrowValue lltv = true ↔
        borrowValue > mulDivDown collateralValue lltv WAD) ∧
    mulDivDown 1000 800000000000000000 WAD = 800 ∧
    Liquidate.isLiquidatable 1000 800 800000000000000000 = false ∧
    Liquidate.isLiquidatable 1000 801 800000000000000000 = true := by
  refine ⟨fun cv bv lltv => ?_, by decide, by decide, by decide⟩
  unfold Liquidate.isLiquidatable mulDivDown
  rcases Nat.eq_zero_or_pos bv with h0 | h0
  · subst h0; simp
  · simp [Nat.pos_iff_ne_zero.mp h0]

/-- C2 counterexample: converting 1 borrow share in a borrow pool with
totalBorrowShares = 2 and totalBorrowAssets = 3 yields 1 (floor of 1.5) in
both calculateBorrowAssets and calculateCurrentDebt, not the ceiling 2
demanded by the claim. -/
theorem currentDebt_not_rounded_up :
    Liquidate.calculateBorrowAssets 1 2 3 = Except.ok 1 ∧
    RepayDebt.calculateCurrentDebt 1 2 3 = Except.ok 1 ∧
    mulDivUp 1 3 2 = 2 ∧
    (1 : Nat) ≠ mulDivUp 1 3 2 := by
  refine ⟨rfl, rfl, rfl, by decide⟩

/-- C2 amended: for totalBorrowShares > 0, both debt conversions round DOWN,
returning mulDivDown(borrowShares, totalBorrowAssets, totalBorrowShares),
i.e. debt = floor(borrowShares * totalBorrowAssets / totalBorrowShares). -/
theorem currentDebt_rounds_down (borrowShares totalBorrowShares totalBorrowAssets : Nat)
    (h : 0 < totalBorrowShares) :
    Liquidate.calculateBorrowAssets borrowShares totalBorrowShares totalBorrowAssets =
      Except.ok (mulDivDown borrowShares totalBorrowAssets totalBorrowShares) ∧
    RepayDebt.calculateCurrentDebt borrowShares totalBorrowShares totalBorrowAssets =
      Except.ok (mulDivDown borrowShares totalBorrowAssets totalBorrowShares) := by
  have hne : totalBorrowShares ≠ 0 := Nat.pos_iff_ne_zero.mp h
  constructor <;>
    simp [Liquidate.calculateBorrowAssets, RepayDebt.calculateCurrentDebt,
      checkedDiv, mulDivDown, hne]

/-- C2 witness: the spec scenario, 500 borrow shares in the pool with totals
550 assets and 500 shares, converts to a debt of 550. -/
theorem currentDebt_rounds_down_w :
    Liquidate.calculateBorrowAssets 500 500 550 = Except.ok 550 ∧
    RepayDebt.calculateCurrentDebt 500 500 550 = Except.ok 550 := by
  have h := currentDebt_rounds_down 500 500 550 (by decide)
  exact ⟨by rw [h.1]; rfl, by rw [h.2]; rfl⟩

/-- C3 counterexample: with maxSeized = 5 and maxRepaid = 3, requesting
seized = 10 and repaid = 7 (both strictly above the bounds) produces the
clamped pair (5, 3) and execution proceeds; there is no
ExceedsMaxLiquidation failure. -/
theorem liquidation_amounts_clamped_not_rejected :
    Liquidate.validateLiquidationAmounts 10 7 5 3 = (5, 3) ∧
    10 > 5 ∧ 7 > 3 := by
  exact ⟨rfl, by decide, by decide⟩

/-- C3 amended: requested amounts exceeding the policy-bounded maxima are
clamped to those maxima (componentwise minimum) and liquidation proceeds
with the adjusted amounts; the operation never fails with
ExceedsMaxLiquidation. -/
theorem liquidation_amounts_clamped (seizedAssets repaidAssets maxSeized maxRepaid : Nat) :
    Liquidate.validateLiquidationAmounts seizedAssets repaidAssets maxSeized maxRepaid =
      (min seizedAssets maxSeized, min repaidAssets maxRepaid) := by
  unfold Liquidate.validateLiquidationAmounts
  simp only [Prod.mk.injEq]
  refine ⟨?_, ?_⟩ <;> · rw [min_def]; split_ifs <;> omega

/-- C4: the liquidation bounds: maxRepaidAssets is half the debt (the 50
percent close factor), the incentive factor 1050/1000 never shrinks the
repaid value, maxSeizedAssets is toCollateralAmount of the
incentive-weighted repay value clamped to the available collateral, and
never exceeds the position collateral. -/
theorem calculateMaxLiquidation_policy
    (collateral borrowAssets oraclePrice loanDecimals collateralDecimals lltv : Nat)
    (hp : 0 < oraclePrice) :
    (Liquidate.calculateMaxLiquidation collateral borrowAssets oraclePrice
        loanDecimals collateralDecimals lltv).maxRepaidAssets = borrowAssets / 2 ∧
    borrowAssets / 2 ≤ mulDivDown (borrowAssets / 2) 1050 1000 ∧
    (Liquidate.calculateMaxLiquidation collateral borrowAssets oraclePrice
        loanDecimals collateralDecimals lltv).maxSeizedAssets =
      min collateral
        (toCollateralAmount (mulDivDown (borrowAssets / 2) 1050 1000)
          oraclePrice loanDecimals collateralDecimals) ∧
    (Liquidate.calculateMaxLiquidation collateral borrowAssets oraclePrice
        loanDecimals collateralDecimals lltv).maxSeizedAssets ≤ collateral := by
  have _hp := hp
  unfold Liquidate.calculateMaxLiquidation toCollateralAmount mulDivDown oracleScale
  refine ⟨rfl, ?_, ?_, ?_⟩
  · calc borrowAssets / 2 = borrowAssets / 2 * 1000 / 1000 := by
          rw [Nat.mul_div_cancel _ (by norm_num)]
      _ ≤ borrowAssets / 2 * 1050 / 1000 :=
          Nat.div_le_div_right (Nat.mul_le_mul_left _ (by norm_num))
  · simp only
    rw [min_def]
    split_ifs <;> omega
  · simp only
    split_ifs <;> omega

/-- C5 counterexample: the spec scenario: supplying 100 assets into the pool
with totals 333 assets and 100 shares mints 30 shares; the position value of
those 30 shares is 99 assets; withdrawing 30 assets burns floor(30 * 30 /
99) = 9 shares, not mulDivUp(30, totalSupplyShares, totalSupplyAssets) =
mulDivUp(30, 100, 333) = 10 as the claim states. -/
theorem withdraw_shares_not_mulDivUp :
    SupplyMarket.expectedShares 100 333 100 = 30 ∧
    WithdrawLoan.calculateSupplyAssets 30 100 333 = Except.ok 99 ∧
    WithdrawLoan.sharesToBurn 30 30 99 = 9 ∧
    mulDivUp 30 100 333 = 10 ∧
    (9 : Nat) ≠ 10 := by
  exact ⟨rfl, rfl, rfl, rfl, by decide⟩

/-- C5 amended: the shares burned are computed rounding DOWN against the
account position: mulDivDown(assets, supplyShares, currentSupplyAssets)
when assets is below the position value and all the supply shares when the
position value is reached; the computed shares never exceed the held supply
shares, so the withdrawal of the position value never lacks shares (the
operation defines no InsufficientShares failure at all). -/
theorem withdraw_shares_rounds_down (withdrawAmount supplyShares currentSupplyAssets : Nat) :
    WithdrawLoan.sharesToBurn withdrawAmount supplyShares currentSupplyAssets =
      (if currentSupplyAssets ≤ withdrawAmount then supplyShares
       else mulDivDown withdrawAmount supplyShares currentSupplyAssets) ∧
    WithdrawLoan.sharesToBurn withdrawAmount supplyShares currentSupplyAssets ≤ supplyShares := by
  constructor
  · unfold WithdrawLoan.sharesToBurn mulDivDown
    simp [ge_iff_le]
  · unfold WithdrawLoan.sharesToBurn
    split_ifs with h
    · exact le_refl _
    · have hpos : 0 < currentSupplyAssets := by omega
      calc withdrawAmount * supplyShares / currentSupplyAssets
          ≤ currentSupplyAssets * supplyShares / currentSupplyAssets :=
            Nat.div_le_div_right (Nat.mul_le_mul_right _ (by omega))
        _ = supplyShares := Nat.mul_div_cancel_left _ hpos

/-- C7: the withdrawal liquidity check rejects exactly the amounts strictly
above totalSupplyAssets - totalBorrowAssets. -/
theorem withdraw_liquidity_check (withdrawAmount totalSupplyAssets totalBorrowAssets : Nat)
    (h : totalBorrowAssets ≤ totalSupplyAssets) :
    WithdrawLoan.exceedsAvailableLiquidity withdrawAmount totalSupplyAssets totalBorrowAssets
        = true ↔
      withdrawAmount > totalSupplyAssets - totalBorrowAssets := by
  unfold WithdrawLoan.exceedsAvailableLiquidity
  simp only [decide_eq_true_eq]
  omega

/-- C7 witness: with totalSupplyAssets = 1000 and totalBorrowAssets = 900,
withdrawing 150 is rejected for insufficient liquidity while withdrawing
100 is not. -/
theorem withdraw_liquidity_check_w :
    WithdrawLoan.exceedsAvailableLiquidity 150 1000 900 = true ∧
    WithdrawLoan.exceedsAvailableLiquidity 100 1000 900 = false := by
  refine ⟨(withdraw_liquidity_check 150 1000 900 (by decide)).mpr (by decide), by decide⟩

/-- C8: the oracle conversion of collateral to loan assets equals the spec
toLoanAssets, mulDivDown by the scale with 36 + loanDecimals -
collateralDecimals fractional digits, and is the exact floor of collateral
* price / scale. -/
theorem oracle_conversion_rounds_down (collateral price loanDecimals collateralDecimals : Nat)
    (hp : 0 < price) :
    Liquidate.collateralValueInLoanToken collateral price loanDecimals collateralDecimals =
      toLoanAssets collateral price loanDecimals collateralDecimals ∧
    Liquidate.collateralValueInLoanToken collateral price loanDecimals collateralDecimals *
        oracleScale loanDecimals collateralDecimals ≤ collateral * price ∧
    collateral * price <
      (Liquidate.collateralValueInLoanToken collateral price loanDecimals collateralDecimals + 1) *
        oracleScale loanDecimals collateralDecimals := by
  have _hp := hp
  have hs : 0 < 10 ^ (36 + loanDecimals - collateralDecimals) := pow_pos (by norm_num) _
  refine ⟨rfl, ?_, ?_⟩
  · unfold Liquidate.collateralValueInLoanToken oracleScale
    exact Nat.div_mul_le_self _ _
  · unfold Liquidate.collateralValueInLoanToken oracleScale
    rw [Nat.add_mul, one_mul]
    exact Nat.lt_div_mul_add hs

/-- C4 witness: collateral 1000, debt 801, price 10^36, both tokens with 18
decimals: maxRepaidAssets = 400, the incentive-weighted value 420 converts
back to 420 collateral units, below the 1000 available. -/
theorem calculateMaxLiquidation_policy_w :
    (Liquidate.calculateMaxLiquidation 1000 801 (10 ^ 36) 18 18
        800000000000000000).maxRepaidAssets = 801 / 2 ∧
    801 / 2 ≤ mulDivDown (801 / 2) 1050 1000 ∧
    (Liquidate.calculateMaxLiquidation 1000 801 (10 ^ 36) 18 18
        800000000000000000).maxSeizedAssets =
      min 1000 (toCollateralAmount (mulDivDown (801 / 2) 1050 1000) (10 ^ 36) 18 18) ∧
    (Liquidate.calculateMaxLiquidation 1000 801 (10 ^ 36) 18 18
        800000000000000000).maxSeizedAssets ≤ 1000 :=
  calculateMaxLiquidation_policy 1000 801 (10 ^ 36) 18 18 800000000000000000
    (pow_pos (by norm_num) 36)

/-- C6: supply mints assets 1:1 on a pool with zero supply shares, mints
mulDivDown(assets, totalSupplyShares, totalSupplyAssets) on a live pool,
increases both pool totals, and on an empty market the minted shares
convert back to exactly the supplied assets. -/
theorem supply_shares_seed_and_roundtrip (assets totalAssets totalShares : Nat)
    (h : 0 < assets) :
    (totalShares = 0 → SupplyMarket.expectedShares assets totalAssets totalShares = assets) ∧
    (0 < totalAssets → 0 < totalShares →
      SupplyMarket.expectedShares assets totalAssets totalShares =
        mulDivDown assets totalShares totalAssets) ∧
    (SupplyMarket.supplyToMarket assets ⟨totalAssets, totalShares⟩).2.totalSupplyAssets =
      totalAssets + assets ∧
    (SupplyMarket.supplyToMarket assets ⟨totalAssets, totalShares⟩).2.totalSupplyShares =
      totalShares + SupplyMarket.expectedShares assets totalAssets totalShares ∧
    (SupplyMarket.supplyToMarket assets ⟨0, 0⟩).1 = assets ∧
    WithdrawLoan.calculateSupplyAssets (SupplyMarket.supplyToMarket assets ⟨0, 0⟩).1
        (SupplyMarket.supplyToMarket assets ⟨0, 0⟩).2.totalSupplyShares
        (SupplyMarket.supplyToMarket assets ⟨0, 0⟩).2.totalSupplyAssets = Except.ok assets := by
  have hne : assets ≠ 0 := Nat.pos_iff_ne_zero.mp h
  refine ⟨?_, ?_, rfl, rfl, ?_, ?_⟩
  · intro h0
    simp [SupplyMarket.expectedShares, h0]
  · intro hA hS
    simp [SupplyMarket.expectedShares, hA, hS, mulDivDown]
  · simp [SupplyMarket.supplyToMarket, SupplyMarket.expectedShares]
  · simp only [SupplyMarket.supplyToMarket, SupplyMarket.expectedShares]
    simp only [Nat.lt_irrefl, false_and, if_false, Nat.zero_add]
    simp [WithdrawLoan.calculateSupplyAssets, checkedDiv, hne,
      Nat.mul_div_cancel _ h]

/-- C6 witness: supplying 100 assets to an empty market mints 100 shares,
the totals become 100 and 100, and the shares convert back to 100 assets. -/
theorem supply_shares_seed_and_roundtrip_w :
    ((0 : Nat) = 0 → SupplyMarket.expectedShares 100 0 0 = 100) ∧
    (0 < (0 : Nat) → 0 < (0 : Nat) →
      SupplyMarket.expectedShares 100 0 0 = mulDivDown 100 0 0) ∧
    (SupplyMarket.supplyToMarket 100 ⟨0, 0⟩).2.totalSupplyAssets = 0 + 100 ∧
    (SupplyMarket.supplyToMarket 100 ⟨0, 0⟩).2.totalSupplyShares =
      0 + SupplyMarket.expectedShares 100 0 0 ∧
    (SupplyMarket.supplyToMarket 100 ⟨0, 0⟩).1 = 100 ∧
    WithdrawLoan.calculateSupplyAssets (SupplyMarket.supplyToMarket 100 ⟨0, 0⟩).1
        (SupplyMarket.supplyToMarket 100 ⟨0, 0⟩).2.totalSupplyShares
        (SupplyMarket.supplyToMarket 100 ⟨0, 0⟩).2.totalSupplyAssets = Except.ok 100 :=
  supply_shares_seed_and_roundtrip 100 0 0 (by decide)

/-- C8 witness: 1000 collateral units at raw price 10^36 with both tokens at
18 decimals: the conversion agrees with toLoanAssets and brackets 1000 *
10^36 between value * scale and (value + 1) * scale. -/
theorem oracle_conversion_rounds_down_w :
    Liquidate.collateralValueInLoanToken 1000 (10 ^ 36) 18 18 =
      toLoanAssets 1000 (10 ^ 36) 18 18 ∧
    Liquidate.collateralValueInLoanToken 1000 (10 ^ 36) 18 18 * oracleScale 18 18 ≤
      1000 * 10 ^ 36 ∧
    1000 * 10 ^ 36 <
      (Liquidate.collateralValueInLoanToken 1000 (10 ^ 36) 18 18 + 1) * oracleScale 18 18 :=
  oracle_conversion_rounds_down 1000 (10 ^ 36) 18 18 (pow_pos (by norm_num) 36)

/-- C9: with debt, price and lltv fixed and debt positive, the health factor
is weakly increasing in the position collateral; the two copies of
calculateHealthFactor in liquidate.ts and updateWithdrawQueueToVault.ts
agree on every input. -/
theorem healthFactor_monotone_in_collateral
    (collateral1 collateral2 debt price loanDecimals collateralDecimals lltv : Nat)
    (hd : 0 < debt) (hc : collateral1 ≤ collateral2) :
    (∃ q1 q2 : ℚ,
      Liquidate.calculateHealthFactor
          (Liquidate.collateralValueInLoanToken collateral1 price loanDecimals collateralDecimals)
          debt lltv = some q1 ∧
      Liquidate.calculateHealthFactor
          (Liquidate.collateralValueInLoanToken collateral2 price loanDecimals collateralDecimals)
          debt lltv = some q2 ∧
      q1 ≤ q2) ∧
    (∀ collateralValue borrowValue l : Nat,
      UpdateQueue.calculateHealthFactor collateralValue borrowValue l =
        Liquidate.calculateHealthFactor collateralValue borrowValue l) := by
  have hdne : debt ≠ 0 := Nat.pos_iff_ne_zero.mp hd
  refine ⟨?_, fun _ _ _ => rfl⟩
  have hcv : Liquidate.collateralValueInLoanToken collateral1 price loanDecimals collateralDecimals ≤
      Liquidate.collateralValueInLoanToken collateral2 price loanDecimals collateralDecimals := by
    unfold Liquidate.collateralValueInLoanToken
    exact Nat.div_le_div_right (Nat.mul_le_mul_right _ hc)
  have hN : Liquidate.collateralValueInLoanToken collateral1 price loanDecimals collateralDecimals
        * lltv / WAD ≤
      Liquidate.collateralValueInLoanToken collateral2 price loanDecimals collateralDecimals
        * lltv / WAD :=
    Nat.div_le_div_right (Nat.mul_le_mul_right _ hcv)
  have hq : ((Liquidate.collateralValueInLoanToken collateral1 price loanDecimals
      collateralDecimals * lltv / WAD : Nat) : ℚ) ≤
      ((Liquidate.collateralValueInLoanToken collateral2 price loanDecimals
      collateralDecimals * lltv / WAD : Nat) : ℚ) := by exact_mod_cast hN
  have hdq : (0 : ℚ) ≤ ((debt : Nat) : ℚ) := by positivity
  refine ⟨((Liquidate.collateralValueInLoanToken collateral1 price loanDecimals
        collateralDecimals * lltv / WAD : Nat) : ℚ) / ((debt : Nat) : ℚ),
      ((Liquidate.collateralValueInLoanToken collateral2 price loanDecimals
        collateralDecimals * lltv / WAD : Nat) : ℚ) / ((debt : Nat) : ℚ), ?_, ?_, ?_⟩
  · simp [Liquidate.calculateHealthFactor, hdne]
  · simp [Liquidate.calculateHealthFactor, hdne]
  · exact div_le_div_of_nonneg_right hq hdq

/-- C9 witness: with debt 500, price 10^36, matching decimals and lltv 0.7
WAD, raising the collateral from 1000 to 2000 does not decrease the health
factor. -/
theorem healthFactor_monotone_in_collateral_w :
    (∃ q1 q2 : ℚ,
      Liquidate.calculateHealthFactor
          (Liquidate.collateralValueInLoanToken 1000 (10 ^ 36) 18 18)
          500 700000000000000000 = some q1 ∧
      Liquidate.calculateHealthFactor
          (Liquidate.collateralValueInLoanToken 2000 (10 ^ 36) 18 18)
          500 700000000000000000 = some q2 ∧
      q1 ≤ q2) ∧
    (∀ collateralValue borrowValue l : Nat,
      UpdateQueue.calculateHealthFactor collateralValue borrowValue l =
        Liquidate.calculateHealthFactor collateralValue borrowValue l) :=
  healthFactor_monotone_in_collateral 1000 2000 500 (10 ^ 36) 18 18 700000000000000000
    (by decide) (by decide)

/-- C10: every share-to-asset conversion in the scripts guards on zero total
shares before dividing, so with total shares 0 each returns ok 0 for every
shares and totalAssets value and the division-by-zero branch is never
reached. -/
theorem zero_total_shares_returns_zero :
    ∀ shares totalAssets : Nat,
      Liquidate.calculateBorrowAssets shares 0 totalAssets = Except.ok 0 ∧
      RepayDebt.calculateCurrentDebt shares 0 totalAssets = Except.ok 0 ∧
      WithdrawLoan.calculateSupplyAssets shares 0 totalAssets = Except.ok 0 ∧
      UpdateQueue.calculateUserAssets shares 0 totalAssets = Except.ok 0 :=
  fun _ _ => ⟨rfl, rfl, rfl, rfl⟩

end MorphoTool
